import Mathlib

/-!
Verification of the recording-session orchestrator of the dashcam CLI.

The JavaScript sources are shallowly embedded as pure Lean functions:
effectful steps (process spawning, file-system checks, timers, tracker
teardown) are represented by an explicit environment describing the outcome
of each effectful step, an explicit module-level state record, and a trace
of the actions the code performs, in program order.
-/

namespace Dashcam

/-! ## Embedding of src/lib/recorder.js

Module-level state: the variables declared at the top of recorder.js
(currentRecording, outputPath, recordingStartTime). -/

/-- The effectful actions performed by startRecording / stopRecording,
recorded in program order. -/
inductive Action where
  | genOutputPath
  | spawnCapture
  | startAppTracking
  | startLogTracking
  | sendQuitSignal
  | sleep (ms : Nat)
  | finalizeAttempt (i : Nat)
  | deleteTempFile
  | stopAppTracking
  | stopLogTracking
  | createGif
  | createSnapshot
  deriving DecidableEq, Repr

/-- The errors thrown by recorder.js (`throw new Error(...)` sites). -/
inductive RecError where
  | alreadyActive
  | notActive
  | captureEmpty
  | finalizeAttemptError
  | finalizationFailed
  | startFailed
  | assetError
  deriving DecidableEq, Repr

/-- The module-level mutable state of recorder.js: currentRecording (the
execa process handle, abstracted to a pid), outputPath, recordingStartTime. -/
structure RecorderState where
  currentRecording : Option Nat
  outputPath : Option String
  recordingStartTime : Option Nat
  deriving DecidableEq, Repr

/-- The observations one finalization subprocess invocation produces:
its exit code, whether the final output file exists afterwards, and its size. -/
structure FinalizeRun where
  exitCode : Int
  outExists : Bool
  outSize : Nat
  deriving DecidableEq, Repr

/-- Environment for stopRecording: outcome of each effectful step.
attempts i is the outcome of finalization attempt i (Except.error models the
execa invocation itself throwing, the catch (err) branch of the loop). -/
structure StopEnv where
  tempExists : Bool
  tempSize : Nat
  attempts : Nat → Except Unit FinalizeRun
  gifOk : Bool
  snapshotOk : Bool

/-- The success test of one finalization attempt, exactly as in
recorder.js line 347: exitCode === 0 && fs.existsSync(outputPath) &&
fs.statSync(outputPath).size > 0. -/
def attemptOk (r : FinalizeRun) : Bool :=
  r.exitCode == 0 && r.outExists && decide (0 < r.outSize)

/-- Whether attempt i succeeds under the given environment (Boolean view of
the loop's branch condition; a thrown attempt never succeeds). -/
def attemptSucceeds (att : Nat → Except Unit FinalizeRun) (i : Nat) : Bool :=
  match att i with
  | .ok r => attemptOk r
  | .error _ => false

/-- The finalization retry loop of stopRecording (recorder.js lines 322-358),
as structural recursion on the number of remaining attempts. remaining + i
always equals the total attempt count 3, so i = total - 1 is remaining = 1.
Each iteration first sleeps (i+1)*2000 ms, then runs the attempt; a
successful attempt breaks the loop, a thrown attempt rethrows only on the
last iteration, and loop exhaustion throws FinalizationFailed. Returns the
index of the successful attempt and the trace of actions. -/
def finalizeLoop (att : Nat → Except Unit FinalizeRun) :
    Nat → Nat → Except RecError Nat × List Action
  | 0, _ => (.error .finalizationFailed, [])
  | remaining + 1, i =>
    let pre := [Action.sleep ((i + 1) * 2000), Action.finalizeAttempt i]
    match att i with
    | .error _ =>
      if remaining = 0 then (.error .finalizeAttemptError, pre)
      else
        let rest := finalizeLoop att remaining (i + 1)
        (rest.1, pre ++ rest.2)
    | .ok r =>
      if attemptOk r then (.ok i, pre)
      else
        let rest := finalizeLoop att remaining (i + 1)
        (rest.1, pre ++ rest.2)

/-- The finalization stage of stopRecording: the loop run with
attempts = 3 starting at i = 0. -/
def finalizeFrom (att : Nat → Except Unit FinalizeRun) :
    Except RecError Nat × List Action :=
  finalizeLoop att 3 0

/-- The trace the finalization loop produces when it runs k iterations:
before attempt i it sleeps (i+1)*2000 ms (linearly increasing backoff). -/
def finTrace (k : Nat) : List Action :=
  (List.range k).flatMap fun i => [Action.sleep ((i + 1) * 2000), Action.finalizeAttempt i]

/-- Embedding of stopRecording (recorder.js lines 244-430). Returns the
result (Except), the final module-level state, and the action trace.
Every branch of the try block that throws lands in the catch block, which
clears currentRecording and recordingStartTime, calls
applicationTracker.stop(), and rethrows; the success branch clears the same
state, calls applicationTracker.stop() a second time (lines 418-421), and
returns. The catch block does NOT call logsTrackerManager.stop(). -/
def stopRecording (env : StopEnv) (st : RecorderState) :
    Except RecError Unit × RecorderState × List Action :=
  match st.currentRecording with
  | none => (.error .notActive, st, [])
  | some _ =>
    let cleared : RecorderState :=
      { st with currentRecording := none, recordingStartTime := none }
    let pre := [Action.sendQuitSignal, Action.sleep 1000]
    if env.tempExists && decide (0 < env.tempSize) then
      let fin := finalizeFrom env.attempts
      match fin.1 with
      | .error e =>
        (.error e, cleared, pre ++ fin.2 ++ [Action.stopAppTracking])
      | .ok _ =>
        let acts := pre ++ fin.2 ++
          [Action.deleteTempFile, Action.stopAppTracking, Action.stopLogTracking,
           Action.createGif, Action.createSnapshot]
        if env.gifOk && env.snapshotOk then
          (.ok (), cleared, acts ++ [Action.stopAppTracking])
        else
          (.error .assetError, cleared, acts ++ [Action.stopAppTracking])
    else
      (.error .captureEmpty, cleared, pre ++ [Action.stopAppTracking])

/-- Environment for startRecording: options and outcomes of its
effectful steps. -/
structure StartEnv where
  customOutputPath : Option String
  generatedPath : String
  spawnOk : Bool
  startLogOk : Bool
  pid : Nat
  now : Nat
  deriving DecidableEq, Repr

/-- Embedding of startRecording (recorder.js lines 127-239). The very first
statement is the guard: if currentRecording is set it throws
AlreadyActive before any other action. Otherwise it assigns outputPath,
spawns ffmpeg, records the start time, starts application and log tracking;
a failure in any of those is caught, clears currentRecording and
recordingStartTime, and rethrows. -/
def startRecording (env : StartEnv) (st : RecorderState) :
    Except RecError (String × Nat) × RecorderState × List Action :=
  match st.currentRecording with
  | some _ => (.error .alreadyActive, st, [])
  | none =>
    let outPath := env.customOutputPath.getD env.generatedPath
    let acts0 :=
      match env.customOutputPath with
      | some _ => []
      | none => [Action.genOutputPath]
    if env.spawnOk then
      let acts := acts0 ++
        [Action.spawnCapture, Action.startAppTracking, Action.genOutputPath,
         Action.startLogTracking]
      if env.startLogOk then
        (.ok (outPath, env.now),
         { currentRecording := some env.pid, outputPath := some outPath,
           recordingStartTime := some env.now }, acts)
      else
        (.error .startFailed,
         { currentRecording := none, outputPath := some outPath,
           recordingStartTime := none }, acts)
    else
      (.error .startFailed,
       { currentRecording := none, outputPath := some outPath,
         recordingStartTime := none }, acts0 ++ [Action.spawnCapture])

/-! ## Embedding of trimLogs (src/unnamed/part_002, lines 149-280)

One raw event parsed from a JSONL log line; the fields trimLogs inspects are
time, timestamp and logFile. -/

/-- A parsed raw log event. -/
structure RawEvent where
  time : Option Int
  timestamp : Option Int
  logFile : Option String
  deriving DecidableEq, Repr

/-- JavaScript's `x || d` on an optional number field: a missing field and a
zero value are both falsy and fall through to the default. -/
def jsNumOr (x : Option Int) (d : Int) : Int :=
  match x with
  | some v => if v = 0 then d else v
  | none => d

/-- The timestamp trimLogs reads from an event (part_002 line 196):
parseInt(event.time || event.timestamp || Date.now()). -/
def rawEventTime (e : RawEvent) (now : Int) : Int :=
  jsNumOr e.time (jsNumOr e.timestamp now)

/-- The session-relative time computation (part_002 lines 199-204):
subtract startMS; if the result exceeds 1_000_000_000_000 the original
timestamp is treated as absolute-but-unsynced and clientStartDate is
subtracted as well. -/
def relativeTime (startMS clientStartDate t : Int) : Int :=
  let r := t - startMS
  if r > 1000000000000 then r - clientStartDate else r

/-- An event after the map to relative time (part_002 lines 195-210). -/
structure RelEvent where
  time : Int
  logFile : Option String
  deriving DecidableEq, Repr

/-- The map stage of trimLogs: rewrite the time field to the
session-relative time, keep the rest of the event. -/
def toRelative (startMS clientStartDate now : Int) (e : RawEvent) : RelEvent :=
  { time := relativeTime startMS clientStartDate (rawEventTime e now)
    logFile := e.logFile }

/-- An event as written to the trimmed artifact: for the cli source type the
logFile field is replaced by a small integer (Sum.inr); otherwise the
original string is kept (Sum.inl). -/
structure TrimmedEvent where
  time : Int
  logFile : Option (String ⊕ Nat)
  deriving DecidableEq, Repr

/-- One step of the cli-source anonymization (part_002 lines 225-237):
a truthy logFile is looked up in fileMap; a missing entry is assigned
Object.keys(fileMap).length + 1 and recorded. An empty-string logFile is
falsy in JavaScript and is left untouched. -/
def anonymizeEvent (fm : List (String × Nat)) (e : RelEvent) :
    TrimmedEvent × List (String × Nat) :=
  match e.logFile with
  | none => ({ time := e.time, logFile := none }, fm)
  | some f =>
    if f = "" then ({ time := e.time, logFile := some (Sum.inl f) }, fm)
    else
      match fm.lookup f with
      | some n => ({ time := e.time, logFile := some (Sum.inr n) }, fm)
      | none =>
        ({ time := e.time, logFile := some (Sum.inr (fm.length + 1)) },
         fm ++ [(f, fm.length + 1)])

/-- The anonymization pass over the filtered events, threading fileMap. -/
def anonymizeEvents (fm : List (String × Nat)) : List RelEvent → List TrimmedEvent
  | [] => []
  | e :: rest =>
    let step := anonymizeEvent fm e
    step.1 :: anonymizeEvents step.2 rest

/-- The fileMap left after the anonymization pass. -/
def anonMapAfter (fm : List (String × Nat)) : List RelEvent → List (String × Nat)
  | [] => fm
  | e :: rest => anonMapAfter (anonymizeEvent fm e).2 rest

/-- The window filter of trimLogs (part_002 lines 219-221 and 240-242,
identical in both branches): keep an event iff
event.time >= 0 && event.time <= duration, duration = endMS - startMS. -/
def inWindow (startMS endMS : Int) (e : RelEvent) : Bool :=
  decide (0 ≤ e.time) && decide (e.time ≤ endMS - startMS)

/-- The per-source trimming pipeline of trimLogs (part_002 lines 194-243) on
the parsed events of one source: map to relative time, filter to the
session window, and for the cli source type anonymize logFile fields. -/
def trimSource (ty : String) (startMS endMS clientStartDate now : Int)
    (events : List RawEvent) : List TrimmedEvent :=
  let rel := events.map (toRelative startMS clientStartDate now)
  let filtered := rel.filter (inWindow startMS endMS)
  if ty = "cli" then anonymizeEvents [] filtered
  else filtered.map fun e => { time := e.time, logFile := e.logFile.map Sum.inl }

/-! ## Embedding of WebTrackerManager event routing (src/lib/tracking.js)

The pattern-match primitive verifyPattern and the tab-state update
updateTabsState are imported from src/lib/helpers.js, a file absent from
src/; they are taken as parameters / modelled from the spec below. -/

/-- One TabRecord as tracked by the router (url and previousUrl are the
fields the dispatch logic reads). -/
structure Tab where
  url : String
  previousUrl : String
  deriving DecidableEq, Repr

/-- An inbound event as seen by the dispatch logic: its type string and the
tabId of its payload. -/
structure WTEvent where
  type : String
  tabId : Nat
  deriving DecidableEq, Repr

/-- The navigation / tab-lifecycle event types that are broadcast to every
global subscriber (tracking.js lines 302-306). -/
def navTypes : List String :=
  ["INITIAL_TABS", "TAB_REMOVED", "TAB_ACTIVATED", "NAVIGATION_STARTED",
   "NAVIGATION_COMPLETED"]

/-- WebTrackerManager.#shouldSendEvent (tracking.js lines 258-289): consult
the per-dispatch cache first; otherwise resolve the event's tab by tabId,
and match the pattern against the tab's current url OR its previousUrl;
a missing tab yields false. The computed value is stored in the cache. -/
def shouldSendEvent (vp : String → String → Bool) (tabs : List (Nat × Tab))
    (pattern : String) (e : WTEvent) (cache : List (String × Bool)) :
    Bool × List (String × Bool) :=
  match cache.lookup pattern with
  | some b => (b, cache)
  | none =>
    match tabs.lookup e.tabId with
    | some tab =>
      let b := vp pattern tab.url || vp pattern tab.previousUrl
      (b, cache ++ [(pattern, b)])
    | none => (false, cache ++ [(pattern, false)])

/-- The uncached value #shouldSendEvent computes for a pattern: matches the
tab's url or previousUrl, false when the tab is unknown. -/
def rawShould (vp : String → String → Bool) (tabs : List (Nat × Tab))
    (e : WTEvent) (pattern : String) : Bool :=
  match tabs.lookup e.tabId with
  | some tab => vp pattern tab.url || vp pattern tab.previousUrl
  | none => false

/-- The default branch of WebTrackerManager.#handleEvent (tracking.js
lines 313-335): iterate the subscriptions in order; a subscription with a
truthy pattern receives the event iff #shouldSendEvent returns true, with
the cache threaded through the iteration (JavaScript short-circuit: a falsy
pattern never consults #shouldSendEvent). Returns the callbacks the event
was delivered to, in order. -/
def dispatchPatternEvent (vp : String → String → Bool) (tabs : List (Nat × Tab))
    (e : WTEvent) : List (Nat × String) → List (String × Bool) → List Nat
  | [], _ => []
  | (cb, p) :: rest, cache =>
    if p = "" then dispatchPatternEvent vp tabs e rest cache
    else
      let step := shouldSendEvent vp tabs p e cache
      if step.1 then cb :: dispatchPatternEvent vp tabs e rest step.2
      else dispatchPatternEvent vp tabs e rest step.2

/-- Modelled from the spec: updateTabsState lives in src/lib/helpers.js,
which is absent from src/. Per the spec's TabRecord data model, tab records
are "mutated only by navigation/tab events flowing through the Router", so
for every non-navigation event type the tab map is returned unchanged; the
navigation/tab-lifecycle update itself is abstracted as the parameter
navUpdate. -/
def updateTabsState (navUpdate : WTEvent → List (Nat × Tab) → List (Nat × Tab))
    (e : WTEvent) (tabs : List (Nat × Tab)) : List (Nat × Tab) :=
  if e.type ∈ navTypes then navUpdate e tabs else tabs

/-- WebTrackerManager.#handleEvent (tracking.js lines 291-348): first update
the tab state, then broadcast navigation/tab-lifecycle events to every
global subscriber, and dispatch every other event per-subscription through
#shouldSendEvent. Returns the delivered callbacks and the new tab state. -/
def handleEvent (vp : String → String → Bool)
    (navUpdate : WTEvent → List (Nat × Tab) → List (Nat × Tab))
    (globalCbs : List Nat) (subs : List (Nat × String)) (e : WTEvent)
    (tabs : List (Nat × Tab)) : List Nat × List (Nat × Tab) :=
  let tabs' := updateTabsState navUpdate e tabs
  if e.type ∈ navTypes then (globalCbs, tabs')
  else (dispatchPatternEvent vp tabs' e subs [], tabs')

/-! ## Embedding of PerformanceTracker (src/lib/performanceTracker.js)

Number-valued metrics are modelled over ℚ (JavaScript numbers with exact
division); the host probes are modelled by an environment giving each
probe's raw outcome, Except.error standing for a thrown probe. -/

/-- The cpu.times record of one core as returned by os.cpus(). -/
structure CpuTimes where
  user : Nat
  nice : Nat
  sys : Nat
  idle : Nat
  irq : Nat
  deriving DecidableEq, Repr

/-- Raw readings of the system probe: os.totalmem(), os.freemem(),
os.cpus(). -/
structure SysRaw where
  totalmem : Nat
  freemem : Nat
  cpus : List CpuTimes
  deriving DecidableEq, Repr

/-- The system metric group of one sample (getSystemMetrics result). -/
structure SystemMetrics where
  totalMemory : Nat
  freeMemory : Nat
  usedMemory : Int
  memoryUsagePercent : ℚ
  cpuCount : Nat
  totalIdle : Nat
  totalTick : Nat
  deriving DecidableEq, Repr

/-- The pure computation of getSystemMetrics on successful raw probe
readings (performanceTracker.js lines 123-151). -/
def sysMetricsOf (raw : SysRaw) : SystemMetrics :=
  let usedMem : Int := (raw.totalmem : Int) - (raw.freemem : Int)
  { totalMemory := raw.totalmem
    freeMemory := raw.freemem
    usedMemory := usedMem
    memoryUsagePercent := ((usedMem : ℚ) / (raw.totalmem : ℚ)) * 100
    cpuCount := raw.cpus.length
    totalIdle := (raw.cpus.map (·.idle)).sum
    totalTick := (raw.cpus.map fun c => c.user + c.nice + c.sys + c.idle + c.irq).sum }

/-- getSystemMetrics (performanceTracker.js lines 122-152). Note: this
method has no try/catch of its own, so a thrown probe propagates
(Except.error) to the caller. -/
def getSystemMetrics (probe : Except Unit SysRaw) : Except Unit SystemMetrics :=
  probe.map sysMetricsOf

/-- The raw pidusage(pid) statistics of the process probe. -/
structure ProcessStats where
  cpu : ℚ
  memory : Nat
  ppid : Nat
  pid : Nat
  ctime : Nat
  elapsed : Nat
  timestamp : Nat
  deriving DecidableEq, Repr

/-- The process metric group of one sample. Fields present only on the
success branch of getProcessMetrics are optional. -/
structure ProcessMetrics where
  cpu : ℚ
  memory : Nat
  pid : Nat
  ppid : Option Nat
  ctime : Option Nat
  elapsed : Option Nat
  timestamp : Option Nat
  deriving DecidableEq, Repr

/-- The zeroed process reading substituted when the process probe throws
(performanceTracker.js lines 171-180). -/
def zeroProcess (pid : Nat) : ProcessMetrics :=
  { cpu := 0, memory := 0, pid := pid
    ppid := none, ctime := none, elapsed := none, timestamp := none }

/-- getProcessMetrics (performanceTracker.js lines 157-181): the pidusage
probe is wrapped in its own try/catch; a throw substitutes a zeroed
reading. -/
def getProcessMetrics (pid : Nat) (probe : Except Unit ProcessStats) :
    ProcessMetrics :=
  match probe with
  | .ok s =>
    { cpu := s.cpu, memory := s.memory, pid := s.pid
      ppid := some s.ppid, ctime := some s.ctime
      elapsed := some s.elapsed, timestamp := some s.timestamp }
  | .error _ => zeroProcess pid

/-- The cumulative byte counters the network probe reads, with the time of
the reading (the currentStats record of getNetworkMetrics). -/
structure NetRaw where
  bytesReceived : Nat
  bytesSent : Nat
  timestamp : Nat
  deriving DecidableEq, Repr

/-- The network metric group of one sample. -/
structure NetworkMetrics where
  bytesReceived : Nat
  bytesSent : Nat
  bytesReceivedPerSec : ℚ
  bytesSentPerSec : ℚ
  mbReceivedPerSec : ℚ
  mbSentPerSec : ℚ
  deriving DecidableEq, Repr

/-- The zeroed network reading substituted when the network probe throws
(performanceTracker.js lines 104-116). -/
def zeroNetwork : NetworkMetrics :=
  { bytesReceived := 0, bytesSent := 0, bytesReceivedPerSec := 0
    bytesSentPerSec := 0, mbReceivedPerSec := 0, mbSentPerSec := 0 }

/-- getNetworkMetrics (performanceTracker.js lines 25-117): on success,
compute per-second rate deltas against the retained previous reading (zero
when there is none or the time delta is not positive) and retain the new
reading; the whole body is wrapped in try/catch, and a throw substitutes
zeroed fields and leaves the previous reading unchanged. Returns the
metric group and the new lastNetworkStats. -/
def getNetworkMetrics (probe : Except Unit NetRaw) (last : Option NetRaw) :
    NetworkMetrics × Option NetRaw :=
  match probe with
  | .ok cur =>
    let rates : ℚ × ℚ :=
      match last with
      | some l =>
        let td : ℚ := ((cur.timestamp : ℚ) - (l.timestamp : ℚ)) / 1000
        if 0 < td then
          (((cur.bytesReceived : ℚ) - (l.bytesReceived : ℚ)) / td,
           ((cur.bytesSent : ℚ) - (l.bytesSent : ℚ)) / td)
        else (0, 0)
      | none => (0, 0)
    ({ bytesReceived := cur.bytesReceived
       bytesSent := cur.bytesSent
       bytesReceivedPerSec := rates.1
       bytesSentPerSec := rates.2
       mbReceivedPerSec := rates.1 / (1024 * 1024)
       mbSentPerSec := rates.2 / (1024 * 1024) }, some cur)
  | .error _ => (zeroNetwork, last)

/-- One collected performance sample. -/
structure Sample where
  timestamp : Nat
  elapsedMs : Int
  system : SystemMetrics
  process : ProcessMetrics
  network : NetworkMetrics
  deriving DecidableEq, Repr

/-- The mutable state of a PerformanceTracker instance. -/
structure PTState where
  intervalActive : Bool
  samples : List Sample
  startTime : Option Nat
  pid : Nat
  lastNetworkStats : Option NetRaw
  performanceFile : Option String
  deriving DecidableEq, Repr

/-- Environment of one sampling tick: the clock and the three probe
outcomes. -/
structure SampleEnv where
  now : Nat
  system : Except Unit SysRaw
  process : Except Unit ProcessStats
  network : Except Unit NetRaw

/-- collectSample (performanceTracker.js lines 198-244). Promise.all starts
all three probes; the process and network probes never reject (each catches
internally), but getSystemMetrics has no catch, so a thrown system probe
rejects the combined promise: the outer catch merely logs, the sample is
never pushed, and the loop continues. The network probe's retained reading
is updated by its own settled promise in either case. -/
def collectSample (env : SampleEnv) (st : PTState) : PTState :=
  let timestamp := env.now
  let elapsedMs : Int :=
    match st.startTime with
    | some t => if t = 0 then 0 else (timestamp : Int) - (t : Int)
    | none => 0
  let net := getNetworkMetrics env.network st.lastNetworkStats
  let st' := { st with lastNetworkStats := net.2 }
  match getSystemMetrics env.system with
  | .error _ => st'
  | .ok sys =>
    let sample : Sample :=
      { timestamp := timestamp, elapsedMs := elapsedMs, system := sys
        process := getProcessMetrics st.pid env.process, network := net.1 }
    { st' with samples := st'.samples ++ [sample] }

/-- The summary aggregates of calculateSummary. -/
structure Summary where
  durationMs : Int
  sampleCount : Nat
  monitorInterval : Nat
  avgProcessCPU : ℚ
  maxProcessCPU : ℚ
  avgProcessMemoryBytes : ℚ
  avgProcessMemoryMB : ℚ
  maxProcessMemoryBytes : Nat
  maxProcessMemoryMB : ℚ
  avgSystemMemoryUsagePercent : ℚ
  maxSystemMemoryUsagePercent : ℚ
  totalSystemMemoryBytes : Nat
  totalSystemMemoryGB : ℚ
  totalBytesReceived : Nat
  totalBytesSent : Nat
  totalMBReceived : ℚ
  totalMBSent : ℚ
  deriving DecidableEq, Repr

/-- calculateSummary (performanceTracker.js lines 355-414): none on an
empty sample list, otherwise totals, means and maxima over the samples and
the cumulative network counters of the last sample. -/
def calculateSummary : List Sample → Option Summary
  | [] => none
  | s :: rest =>
    let samples := s :: rest
    let lastSample := samples.getLast (by simp)
    let totalProcessCPU := (samples.map fun x => x.process.cpu).sum
    let totalProcessMemory := (samples.map fun x => x.process.memory).sum
    let totalSystemMemoryUsage := (samples.map fun x => x.system.memoryUsagePercent).sum
    let maxProcessCPU := (samples.map fun x => x.process.cpu).foldl max 0
    let maxProcessMemory := (samples.map fun x => x.process.memory).foldl max 0
    let maxSystemMemoryUsage := (samples.map fun x => x.system.memoryUsagePercent).foldl max 0
    let count : ℚ := samples.length
    some
      { durationMs := (lastSample.timestamp : Int) - (s.timestamp : Int)
        sampleCount := samples.length
        monitorInterval := 5000
        avgProcessCPU := totalProcessCPU / count
        maxProcessCPU := maxProcessCPU
        avgProcessMemoryBytes := (totalProcessMemory : ℚ) / count
        avgProcessMemoryMB := ((totalProcessMemory : ℚ) / count) / (1024 * 1024)
        maxProcessMemoryBytes := maxProcessMemory
        maxProcessMemoryMB := (maxProcessMemory : ℚ) / (1024 * 1024)
        avgSystemMemoryUsagePercent := totalSystemMemoryUsage / count
        maxSystemMemoryUsagePercent := maxSystemMemoryUsage
        totalSystemMemoryBytes := s.system.totalMemory
        totalSystemMemoryGB := (s.system.totalMemory : ℚ) / (1024 * 1024 * 1024)
        totalBytesReceived := lastSample.network.bytesReceived
        totalBytesSent := lastSample.network.bytesSent
        totalMBReceived := (lastSample.network.bytesReceived : ℚ) / (1024 * 1024)
        totalMBSent := (lastSample.network.bytesSent : ℚ) / (1024 * 1024) }

/-- Environment of PerformanceTracker.stop: whether the durable sample file
exists and the outcome of reading and parsing it (Except.error models a
read or JSON.parse throw, caught with samples left unchanged). -/
structure PTStopEnv where
  fileExists : Bool
  fileRead : Except Unit (List Sample)

/-- PerformanceTracker.stop (performanceTracker.js lines 289-350): clear
the interval; when a performance file is set and exists, reload the full
sample set from it; with zero samples return early with samples = [] and a
null summary; otherwise compute the summary, delete the file, reset the
state and return the samples with the summary. -/
def ptStop (env : PTStopEnv) (st : PTState) :
    (List Sample × Option Summary) × PTState :=
  let st1 := { st with intervalActive := false }
  let st2 :=
    if st1.performanceFile.isSome && env.fileExists then
      match env.fileRead with
      | .ok loaded => { st1 with samples := loaded }
      | .error _ => st1
    else st1
  if st2.samples.length = 0 then (([], none), st2)
  else
    ((st2.samples, calculateSummary st2.samples),
     { st2 with samples := [], startTime := none, performanceFile := none })

/-! ## Concrete instances used as counterexamples and witnesses -/

/-- A recorder state with an active session. -/
def activeSt : RecorderState :=
  { currentRecording := some 1, outputPath := some "tmp/recordings/r.webm"
    recordingStartTime := some 100 }

/-- A stop environment where every finalization attempt runs the subprocess
and it exits with code 1 (attempt fails), the temp file being fine. -/
def allFailEnv : StopEnv :=
  { tempExists := true, tempSize := 5
    attempts := fun _ => .ok { exitCode := 1, outExists := false, outSize := 0 }
    gifOk := true, snapshotOk := true }

/-- A stop environment where attempts 0 and 1 fail and attempt 2 succeeds. -/
def thirdTryEnv : StopEnv :=
  { tempExists := true, tempSize := 5
    attempts := fun i =>
      if i < 2 then .ok { exitCode := 1, outExists := false, outSize := 0 }
      else .ok { exitCode := 0, outExists := true, outSize := 9 }
    gifOk := true, snapshotOk := true }

/-- A stop environment where everything succeeds at the first attempt. -/
def allOkEnv : StopEnv :=
  { tempExists := true, tempSize := 5
    attempts := fun _ => .ok { exitCode := 0, outExists := true, outSize := 9 }
    gifOk := true, snapshotOk := true }

/-- A sampling environment where only the system probe throws; the process
and network probes return real, non-zero readings. -/
def sysFailEnv : SampleEnv :=
  { now := 7000
    system := .error ()
    process := .ok { cpu := 12, memory := 4096, ppid := 1, pid := 42
                     ctime := 3, elapsed := 1000, timestamp := 7000 }
    network := .ok { bytesReceived := 900, bytesSent := 400, timestamp := 7000 } }

/-- The raw system reading used by the network-failure scenario. -/
def demoSysRaw : SysRaw :=
  { totalmem := 1000, freemem := 400
    cpus := [{ user := 10, nice := 0, sys := 5, idle := 85, irq := 0 }] }

/-- The pidusage reading used by the network-failure scenario. -/
def demoProcStats : ProcessStats :=
  { cpu := 12, memory := 4096, ppid := 1, pid := 42
    ctime := 3, elapsed := 1000, timestamp := 7000 }

/-- A sampling environment where only the network probe throws. -/
def netFailEnv : SampleEnv :=
  { now := 7000
    system := .ok demoSysRaw
    process := .ok demoProcStats
    network := .error () }

/-- A small list of relative events carrying logFile identifiers, two of
them sharing one identifier. -/
def demoRel : List RelEvent :=
  [{ time := 1, logFile := some "x" }, { time := 2, logFile := some "y" },
   { time := 3, logFile := some "x" }]

/-- A stop environment for the telemetry sampler with no durable file. -/
def stopEnvNoFile : PTStopEnv := { fileExists := false, fileRead := .error () }

/-- A fresh performance-tracker state with no collected samples. -/
def freshPT : PTState :=
  { intervalActive := true, samples := [], startTime := some 6000, pid := 42
    lastNetworkStats := none, performanceFile := none }

/-- A start environment whose effectful steps would all succeed. -/
def startEnv0 : StartEnv :=
  { customOutputPath := none, generatedPath := "tmp/recordings/r2.webm"
    spawnOk := true, startLogOk := true, pid := 2, now := 200 }

/-! # Theorems

Helper lemmas about the finalization loop, then one theorem per claim. -/

lemma attemptSucceeds_eq_ok (att : Nat → Except Unit FinalizeRun) (i : Nat)
    (r : FinalizeRun) (ha : att i = .ok r) :
    attemptSucceeds att i = attemptOk r := by
  unfold attemptSucceeds
  rw [ha]

lemma attemptSucceeds_eq_err (att : Nat → Except Unit FinalizeRun) (i : Nat)
    (e : Unit) (ha : att i = .error e) :
    attemptSucceeds att i = false := by
  unfold attemptSucceeds
  rw [ha]

lemma finalizeLoop_succ_of_succeeds (att : Nat → Except Unit FinalizeRun)
    (rem i : Nat) (h : attemptSucceeds att i = true) :
    finalizeLoop att (rem + 1) i =
      (.ok i, [Action.sleep ((i + 1) * 2000), Action.finalizeAttempt i]) := by
  unfold attemptSucceeds at h
  rw [finalizeLoop]
  cases ha : att i with
  | error e => rw [ha] at h; simp at h
  | ok r => rw [ha] at h; simp only at h; simp [h]

lemma finalizeLoop_step_of_fails (att : Nat → Except Unit FinalizeRun)
    (rem i : Nat) (hrem : rem ≠ 0) (h : attemptSucceeds att i = false) :
    finalizeLoop att (rem + 1) i =
      ((finalizeLoop att rem (i + 1)).1,
       [Action.sleep ((i + 1) * 2000), Action.finalizeAttempt i] ++
         (finalizeLoop att rem (i + 1)).2) := by
  unfold attemptSucceeds at h
  rw [finalizeLoop]
  cases ha : att i with
  | error e => rw [ha] at h; simp [hrem]
  | ok r => rw [ha] at h; simp only at h; simp [h]

lemma finalizeLoop_last_of_fails (att : Nat → Except Unit FinalizeRun)
    (i : Nat) (h : attemptSucceeds att i = false) :
    ∃ e, finalizeLoop att 1 i =
      (.error e, [Action.sleep ((i + 1) * 2000), Action.finalizeAttempt i]) := by
  unfold attemptSucceeds at h
  rw [show (1 : Nat) = 0 + 1 from rfl, finalizeLoop]
  cases ha : att i with
  | error e => rw [ha] at h; exact ⟨.finalizeAttemptError, by simp⟩
  | ok r =>
    rw [ha] at h; simp only at h
    refine ⟨.finalizationFailed, ?_⟩
    simp [h, finalizeLoop]

lemma finTrace_one :
    finTrace 1 = [Action.sleep 2000, Action.finalizeAttempt 0] := by
  simp [finTrace, List.range_succ]

lemma finTrace_two :
    finTrace 2 = [Action.sleep 2000, Action.finalizeAttempt 0,
      Action.sleep 4000, Action.finalizeAttempt 1] := by
  simp [finTrace, List.range_succ]

lemma finTrace_three :
    finTrace 3 = [Action.sleep 2000, Action.finalizeAttempt 0,
      Action.sleep 4000, Action.finalizeAttempt 1,
      Action.sleep 6000, Action.finalizeAttempt 2] := by
  simp [finTrace, List.range_succ]

lemma fin_succ0 (att : Nat → Except Unit FinalizeRun)
    (h : attemptSucceeds att 0 = true) :
    finalizeFrom att = (.ok 0, finTrace 1) := by
  unfold finalizeFrom
  rw [show (3 : Nat) = 2 + 1 from rfl, finalizeLoop_succ_of_succeeds att 2 0 h,
    finTrace_one]

lemma fin_succ1 (att : Nat → Except Unit FinalizeRun)
    (h0 : attemptSucceeds att 0 = false) (h1 : attemptSucceeds att 1 = true) :
    finalizeFrom att = (.ok 1, finTrace 2) := by
  unfold finalizeFrom
  rw [show (3 : Nat) = 2 + 1 from rfl, finalizeLoop_step_of_fails att 2 0 (by simp) h0,
    show (2 : Nat) = 1 + 1 from rfl, finalizeLoop_succ_of_succeeds att 1 1 h1,
    finTrace_two]
  rfl

lemma fin_succ2 (att : Nat → Except Unit FinalizeRun)
    (h0 : attemptSucceeds att 0 = false) (h1 : attemptSucceeds att 1 = false)
    (h2 : attemptSucceeds att 2 = true) :
    finalizeFrom att = (.ok 2, finTrace 3) := by
  unfold finalizeFrom
  rw [show (3 : Nat) = 2 + 1 from rfl, finalizeLoop_step_of_fails att 2 0 (by simp) h0,
    show (2 : Nat) = 1 + 1 from rfl, finalizeLoop_step_of_fails att 1 1 (by simp) h1,
    finalizeLoop_succ_of_succeeds att 0 2 h2, finTrace_three]
  rfl

lemma fin_fail (att : Nat → Except Unit FinalizeRun)
    (h0 : attemptSucceeds att 0 = false) (h1 : attemptSucceeds att 1 = false)
    (h2 : attemptSucceeds att 2 = false) :
    ∃ e, finalizeFrom att = (.error e, finTrace 3) := by
  obtain ⟨e, he⟩ := finalizeLoop_last_of_fails att 2 h2
  refine ⟨e, ?_⟩
  unfold finalizeFrom
  rw [show (3 : Nat) = 2 + 1 from rfl, finalizeLoop_step_of_fails att 2 0 (by simp) h0,
    show (2 : Nat) = 1 + 1 from rfl, finalizeLoop_step_of_fails att 1 1 (by simp) h1,
    he, finTrace_three]
  rfl

lemma fin_trace_shape (att : Nat → Except Unit FinalizeRun) :
    ∃ k, k ≤ 3 ∧ (finalizeFrom att).2 = finTrace k := by
  cases h0 : attemptSucceeds att 0 with
  | true => exact ⟨1, by omega, by rw [fin_succ0 att h0]⟩
  | false =>
    cases h1 : attemptSucceeds att 1 with
    | true => exact ⟨2, by omega, by rw [fin_succ1 att h0 h1]⟩
    | false =>
      cases h2 : attemptSucceeds att 2 with
      | true => exact ⟨3, by omega, by rw [fin_succ2 att h0 h1 h2]⟩
      | false =>
        obtain ⟨e, he⟩ := fin_fail att h0 h1 h2
        exact ⟨3, by omega, by rw [he]⟩

lemma mem_finTrace_attempt (i k : Nat) :
    Action.finalizeAttempt i ∈ finTrace k ↔ i < k := by
  simp [finTrace]

lemma stopLog_not_mem_finTrace (k : Nat) :
    Action.stopLogTracking ∉ finTrace k := by
  simp [finTrace]

lemma deleteTemp_not_mem_finTrace (k : Nat) :
    Action.deleteTempFile ∉ finTrace k := by
  simp [finTrace]

lemma fin_first_success (att : Nat → Except Unit FinalizeRun) (i : Nat)
    (h : (finalizeFrom att).1 = .ok i) :
    attemptSucceeds att i = true ∧ ∀ j, j < i → attemptSucceeds att j = false := by
  cases h0 : attemptSucceeds att 0 with
  | true =>
    rw [fin_succ0 att h0] at h
    simp at h
    subst h
    exact ⟨h0, by omega⟩
  | false =>
    cases h1 : attemptSucceeds att 1 with
    | true =>
      rw [fin_succ1 att h0 h1] at h
      simp at h
      subst h
      refine ⟨h1, fun j hj => ?_⟩
      interval_cases j
      exact h0
    | false =>
      cases h2 : attemptSucceeds att 2 with
      | true =>
        rw [fin_succ2 att h0 h1 h2] at h
        simp at h
        subst h
        refine ⟨h2, fun j hj => ?_⟩
        interval_cases j
        · exact h0
        · exact h1
      | false =>
        obtain ⟨e, he⟩ := fin_fail att h0 h1 h2
        rw [he] at h
        simp at h

lemma stopRecording_state_cleared (env : StopEnv) (st : RecorderState) (pid : Nat)
    (hact : st.currentRecording = some pid) :
    (stopRecording env st).2.1 =
      { st with currentRecording := none, recordingStartTime := none } := by
  unfold stopRecording
  rw [hact]
  dsimp only
  split
  · split <;> first | rfl | (split <;> rfl)
  · rfl

lemma stopRecording_captureEmpty (env : StopEnv) (st : RecorderState) (pid : Nat)
    (hact : st.currentRecording = some pid)
    (h : (env.tempExists && decide (0 < env.tempSize)) = false) :
    stopRecording env st =
      (.error .captureEmpty,
       { st with currentRecording := none, recordingStartTime := none },
       [Action.sendQuitSignal, Action.sleep 1000, Action.stopAppTracking]) := by
  unfold stopRecording
  rw [hact]
  simp [h]

lemma stopRecording_finErr (env : StopEnv) (st : RecorderState) (pid : Nat)
    (e : RecError) (tr : List Action)
    (hact : st.currentRecording = some pid)
    (htemp : env.tempExists = true) (hsize : 0 < env.tempSize)
    (hfin : finalizeFrom env.attempts = (.error e, tr)) :
    stopRecording env st =
      (.error e,
       { st with currentRecording := none, recordingStartTime := none },
       [Action.sendQuitSignal, Action.sleep 1000] ++ tr ++ [Action.stopAppTracking]) := by
  unfold stopRecording
  rw [hact]
  simp [htemp, hsize, hfin]

lemma stopRecording_finOk (env : StopEnv) (st : RecorderState) (pid : Nat)
    (i : Nat) (tr : List Action)
    (hact : st.currentRecording = some pid)
    (htemp : env.tempExists = true) (hsize : 0 < env.tempSize)
    (hfin : finalizeFrom env.attempts = (.ok i, tr)) :
    stopRecording env st =
      ((if env.gifOk && env.snapshotOk then .ok () else .error .assetError),
       { st with currentRecording := none, recordingStartTime := none },
       [Action.sendQuitSignal, Action.sleep 1000] ++ tr ++
         [Action.deleteTempFile, Action.stopAppTracking, Action.stopLogTracking,
          Action.createGif, Action.createSnapshot, Action.stopAppTracking]) := by
  unfold stopRecording
  rw [hact]
  by_cases hg : (env.gifOk && env.snapshotOk) = true <;> simp [htemp, hsize, hfin, hg]

lemma fin_ok_of_exists (att : Nat → Except Unit FinalizeRun)
    (h : ∃ i, i < 3 ∧ attemptSucceeds att i = true) :
    ∃ j, finalizeFrom att = (.ok j, finTrace (j + 1)) := by
  cases h0 : attemptSucceeds att 0 with
  | true => exact ⟨0, fin_succ0 att h0⟩
  | false =>
    cases h1 : attemptSucceeds att 1 with
    | true => exact ⟨1, fin_succ1 att h0 h1⟩
    | false =>
      cases h2 : attemptSucceeds att 2 with
      | true => exact ⟨2, fin_succ2 att h0 h1 h2⟩
      | false =>
        exfalso
        obtain ⟨i, hi, hs⟩ := h
        interval_cases i <;> simp_all

/-- C9: startRecording called while a recording is active throws
AlreadyActive as its very first step: the result is the error, the
module-level state (process handle, output path, start time) is returned
unchanged, and no action whatsoever has been performed. -/
theorem claim_C9 (env : StartEnv) (st : RecorderState) (pid : Nat)
    (hact : st.currentRecording = some pid) :
    startRecording env st = (.error .alreadyActive, st, []) := by
  unfold startRecording
  rw [hact]

/-- Witness for C9 at a concrete active state and environment. -/
theorem claim_C9_witness :
    startRecording startEnv0 activeSt = (.error .alreadyActive, activeSt, []) :=
  claim_C9 startEnv0 activeSt 1 rfl

/-- C2: stopRecording on an active session clears both currentRecording and
recordingStartTime on every exit path: the success path, the capture-empty
throw, finalization exhaustion, and the asset-generation throw all return a
state with both fields cleared. -/
theorem claim_C2 (env : StopEnv) (st : RecorderState) (pid : Nat)
    (hact : st.currentRecording = some pid) :
    (stopRecording env st).2.1.currentRecording = none ∧
      (stopRecording env st).2.1.recordingStartTime = none := by
  rw [stopRecording_state_cleared env st pid hact]
  exact ⟨rfl, rfl⟩

/-- Witness for C2: even when every finalization attempt fails, the session
state comes back cleared. -/
theorem claim_C2_witness :
    (stopRecording allFailEnv activeSt).2.1.currentRecording = none ∧
      (stopRecording allFailEnv activeSt).2.1.recordingStartTime = none :=
  claim_C2 allFailEnv activeSt 1 rfl

/-- C3: the finalization stage of stopRecording (on an active session with a
non-empty temp file): at most 3 attempts are made; each attempt i is
preceded by a (i+1)*2000 ms delay, the backoff increasing linearly; an
attempt succeeds exactly when the subprocess exits 0 AND the final file
exists AND is non-empty; iteration stops at the first successful attempt;
if some of the 3 attempts succeeds (and the later asset steps do too)
stopRecording returns success and deletes the temp file, and if all 3
attempts fail stopRecording fails with the finalization error and the temp
file is never deleted. -/
theorem claim_C3 (env : StopEnv) (st : RecorderState) (pid : Nat)
    (hact : st.currentRecording = some pid)
    (htemp : env.tempExists = true) (hsize : 0 < env.tempSize) :
    (∀ i, Action.finalizeAttempt i ∈ (finalizeFrom env.attempts).2 → i < 3) ∧
    (∃ k, k ≤ 3 ∧ (finalizeFrom env.attempts).2 = finTrace k) ∧
    (∀ r : FinalizeRun, attemptOk r = true ↔
       (r.exitCode = 0 ∧ r.outExists = true ∧ 0 < r.outSize)) ∧
    (∀ i, (finalizeFrom env.attempts).1 = .ok i →
       attemptSucceeds env.attempts i = true ∧
         ∀ j, j < i → attemptSucceeds env.attempts j = false) ∧
    ((∃ i, i < 3 ∧ attemptSucceeds env.attempts i = true) →
       env.gifOk = true → env.snapshotOk = true →
       (stopRecording env st).1 = .ok () ∧
         Action.deleteTempFile ∈ (stopRecording env st).2.2) ∧
    ((∀ i, i < 3 → attemptSucceeds env.attempts i = false) →
       (∃ e, (stopRecording env st).1 = .error e) ∧
         Action.deleteTempFile ∉ (stopRecording env st).2.2) := by
  obtain ⟨k, hk3, htr⟩ := fin_trace_shape env.attempts
  refine ⟨?_, ⟨k, hk3, htr⟩, ?_, fun i h => fin_first_success env.attempts i h, ?_, ?_⟩
  · intro i hi
    rw [htr] at hi
    have := (mem_finTrace_attempt i k).mp hi
    omega
  · intro r
    simp [attemptOk, and_assoc]
  · intro hex hgif hsnap
    obtain ⟨j, hfin⟩ := fin_ok_of_exists env.attempts hex
    rw [stopRecording_finOk env st pid j (finTrace (j + 1)) hact htemp hsize hfin,
      hgif, hsnap]
    refine ⟨rfl, ?_⟩
    simp
  · intro hall
    obtain ⟨e, hfin⟩ := fin_fail env.attempts (hall 0 (by omega)) (hall 1 (by omega))
      (hall 2 (by omega))
    rw [stopRecording_finErr env st pid e (finTrace 3) hact htemp hsize hfin]
    refine ⟨⟨e, rfl⟩, ?_⟩
    simp [finTrace_three]

/-- Witness for C3: attempts 1 and 2 fail, attempt 3 succeeds, and
stopRecording returns success with the temp file deleted. -/
theorem claim_C3_witness :
    (stopRecording thirdTryEnv activeSt).1 = .ok () ∧
      Action.deleteTempFile ∈ (stopRecording thirdTryEnv activeSt).2.2 := by
  have h := claim_C3 thirdTryEnv activeSt 1 rfl rfl (by decide)
  exact h.2.2.2.2.1 ⟨2, by decide, by decide⟩ rfl rfl

/-- C1 is falsified by the code: on the exit path where finalization has
failed after all retry attempts, the catch block of stopRecording
(recorder.js lines 423-429) stops only the application tracker, never
logsTrackerManager — the Log Router teardown is skipped on that path. -/
theorem claim_C1_counterexample :
    (stopRecording allFailEnv activeSt).1 = .error .finalizationFailed ∧
      Action.stopAppTracking ∈ (stopRecording allFailEnv activeSt).2.2 ∧
      Action.stopLogTracking ∉ (stopRecording allFailEnv activeSt).2.2 := by
  refine ⟨rfl, by decide, by decide⟩

/-- C1 amended: on every exit path of stopRecording on an active session
the application tracker (summary collection) is stopped, but the log
tracking teardown (per-source results) runs exactly when finalization
succeeded: it is skipped on the capture-empty and
finalization-failure exit paths. -/
theorem claim_C1_amended (env : StopEnv) (st : RecorderState) (pid : Nat)
    (hact : st.currentRecording = some pid) :
    Action.stopAppTracking ∈ (stopRecording env st).2.2 ∧
      (Action.stopLogTracking ∈ (stopRecording env st).2.2 ↔
        (env.tempExists = true ∧ 0 < env.tempSize ∧
          ∃ i, (finalizeFrom env.attempts).1 = .ok i)) := by
  by_cases htempOk : (env.tempExists && decide (0 < env.tempSize)) = true
  · obtain ⟨htemp, hsizeb⟩ := Bool.and_eq_true _ _ |>.mp htempOk
    have hsize : 0 < env.tempSize := of_decide_eq_true hsizeb
    obtain ⟨k, hk3, htr⟩ := fin_trace_shape env.attempts
    rcases hres : (finalizeFrom env.attempts).1 with e | i
    · have hfin : finalizeFrom env.attempts = (.error e, finTrace k) := by
        rw [show finalizeFrom env.attempts =
            ((finalizeFrom env.attempts).1, (finalizeFrom env.attempts).2) from rfl,
          hres, htr]
      rw [stopRecording_finErr env st pid e (finTrace k) hact htemp hsize hfin]
      refine ⟨by simp, Iff.intro ?_ ?_⟩
      · intro hmem
        exfalso
        revert hmem
        simp [stopLog_not_mem_finTrace k]
      · rintro ⟨-, -, i, hok⟩
        exact absurd hok (by simp)
    · have hfin : finalizeFrom env.attempts = (.ok i, finTrace k) := by
        rw [show finalizeFrom env.attempts =
            ((finalizeFrom env.attempts).1, (finalizeFrom env.attempts).2) from rfl,
          hres, htr]
      rw [stopRecording_finOk env st pid i (finTrace k) hact htemp hsize hfin]
      refine ⟨by simp, Iff.intro ?_ ?_⟩
      · intro _
        exact ⟨htemp, hsize, i, rfl⟩
      · intro _
        simp
  · have hfalse : (env.tempExists && decide (0 < env.tempSize)) = false := by
      simpa using htempOk
    rw [stopRecording_captureEmpty env st pid hact hfalse]
    constructor
    · simp
    · constructor
      · intro hmem
        simp at hmem
      · rintro ⟨htemp, hsize, -⟩
        rw [htemp] at hfalse
        simp [hsize] at hfalse

/-- Witness for the amended C1: when finalization succeeds both teardowns
appear in the trace. -/
theorem claim_C1_witness :
    Action.stopAppTracking ∈ (stopRecording allOkEnv activeSt).2.2 ∧
      (Action.stopLogTracking ∈ (stopRecording allOkEnv activeSt).2.2 ↔
        (allOkEnv.tempExists = true ∧ 0 < allOkEnv.tempSize ∧
          ∃ i, (finalizeFrom allOkEnv.attempts).1 = .ok i)) :=
  claim_C1_amended allOkEnv activeSt 1 rfl

/-! ### Trim / normalize stage lemmas -/

lemma lookup_append_some {α β : Type} [BEq α] (l₁ l₂ : List (α × β)) (a : α) (b : β)
    (h : l₁.lookup a = some b) : (l₁ ++ l₂).lookup a = some b := by
  induction l₁ with
  | nil => simp [List.lookup] at h
  | cons hd tl ih =>
    obtain ⟨k, v⟩ := hd
    by_cases hk : (a == k) = true
    · simp [List.lookup, hk] at h ⊢
      exact h
    · simp only [Bool.not_eq_true] at hk
      simp [List.lookup, hk] at h ⊢
      exact ih h

lemma lookup_append_none {α β : Type} [BEq α] (l₁ l₂ : List (α × β)) (a : α)
    (h : l₁.lookup a = none) : (l₁ ++ l₂).lookup a = l₂.lookup a := by
  induction l₁ with
  | nil => simp
  | cons hd tl ih =>
    obtain ⟨k, v⟩ := hd
    by_cases hk : (a == k) = true
    · simp [List.lookup, hk] at h
    · simp only [Bool.not_eq_true] at hk
      simp [List.lookup, hk] at h ⊢
      exact ih h

lemma lookup_mem {α β : Type} [BEq α] [LawfulBEq α] (l : List (α × β)) (a : α) (b : β)
    (h : l.lookup a = some b) : ∃ p : Fin l.length, l.get p = (a, b) := by
  induction l with
  | nil => simp [List.lookup] at h
  | cons hd tl ih =>
    obtain ⟨k, v⟩ := hd
    by_cases hk : (a == k) = true
    · simp [List.lookup, hk] at h
      have hak : a = k := eq_of_beq hk
      refine ⟨⟨0, by simp⟩, ?_⟩
      simp [hak, h]
    · simp only [Bool.not_eq_true] at hk
      simp [List.lookup, hk] at h
      obtain ⟨⟨p, hp⟩, hg⟩ := ih h
      exact ⟨⟨p + 1, by simpa using Nat.succ_lt_succ hp⟩, by simpa using hg⟩

/-- The invariant of the anonymization fileMap: the value stored at
position i is i + 1 (Object.keys(fileMap).length + 1 at insertion time). -/
def fmGood (fm : List (String × Nat)) : Prop :=
  ∀ i : Fin fm.length, (fm.get i).2 = i.1 + 1

lemma fmGood_nil : fmGood [] := by
  intro i
  exact absurd i.2 (by simp)

lemma fmGood_append (fm : List (String × Nat)) (f : String) (h : fmGood fm) :
    fmGood (fm ++ [(f, fm.length + 1)]) := by
  intro ⟨i, hi⟩
  simp only [List.length_append, List.length_cons, List.length_nil] at hi
  by_cases hlt : i < fm.length
  · have := h ⟨i, hlt⟩
    simpa [List.get_eq_getElem, List.getElem_append_left hlt] using this
  · have hieq : i = fm.length := by omega
    subst hieq
    simp [List.get_eq_getElem, List.getElem_append_right (by omega : ¬ i < fm.length)]

lemma fmGood_lookup_inj (fm : List (String × Nat)) (h : fmGood fm)
    (f g : String) (n : Nat)
    (hf : fm.lookup f = some n) (hg : fm.lookup g = some n) : f = g := by
  obtain ⟨pf, hpf⟩ := lookup_mem fm f n hf
  obtain ⟨pg, hpg⟩ := lookup_mem fm g n hg
  have h1 := h pf
  have h2 := h pg
  rw [hpf] at h1
  rw [hpg] at h2
  have hpp : pf = pg := Fin.ext (by omega)
  rw [hpp, hpg] at hpf
  exact (Prod.mk.injEq _ _ _ _  |>.mp hpf).1.symm

lemma anonymizeEvent_time (fm : List (String × Nat)) (e : RelEvent) :
    (anonymizeEvent fm e).1.time = e.time := by
  cases h : e.logFile with
  | none => simp [anonymizeEvent, h]
  | some f =>
    by_cases hf : f = ""
    · simp [anonymizeEvent, h, hf]
    · cases hl : fm.lookup f <;> simp [anonymizeEvent, h, hf, hl]

lemma anonymizeEvent_map_good (fm : List (String × Nat)) (e : RelEvent)
    (h : fmGood fm) : fmGood (anonymizeEvent fm e).2 := by
  cases hlf : e.logFile with
  | none => simpa [anonymizeEvent, hlf] using h
  | some f =>
    by_cases hf : f = ""
    · simpa [anonymizeEvent, hlf, hf] using h
    · cases hl : fm.lookup f with
      | some n => simpa [anonymizeEvent, hlf, hf, hl] using h
      | none =>
        have := fmGood_append fm f h
        simpa [anonymizeEvent, hlf, hf, hl] using this

lemma anonymizeEvent_lookup_mono (fm : List (String × Nat)) (e : RelEvent)
    (g : String) (m : Nat) (h : fm.lookup g = some m) :
    (anonymizeEvent fm e).2.lookup g = some m := by
  cases hlf : e.logFile with
  | none => simpa [anonymizeEvent, hlf] using h
  | some f =>
    by_cases hf : f = ""
    · simpa [anonymizeEvent, hlf, hf] using h
    · cases hl : fm.lookup f with
      | some n => simpa [anonymizeEvent, hlf, hf, hl] using h
      | none =>
        have := lookup_append_some fm [(f, fm.length + 1)] g m h
        simpa [anonymizeEvent, hlf, hf, hl] using this

lemma anonMapAfter_good (l : List RelEvent) :
    ∀ fm, fmGood fm → fmGood (anonMapAfter fm l) := by
  induction l with
  | nil => intro fm h; simpa [anonMapAfter] using h
  | cons a rest ih =>
    intro fm h
    have := ih (anonymizeEvent fm a).2 (anonymizeEvent_map_good fm a h)
    simpa [anonMapAfter] using this

lemma anonMapAfter_lookup_mono (l : List RelEvent) :
    ∀ fm g m, fm.lookup g = some m → (anonMapAfter fm l).lookup g = some m := by
  induction l with
  | nil => intro fm g m h; simpa [anonMapAfter] using h
  | cons a rest ih =>
    intro fm g m h
    have := ih (anonymizeEvent fm a).2 g m (anonymizeEvent_lookup_mono fm a g m h)
    simpa [anonMapAfter] using this

lemma anonymizeEvent_some_out (fm : List (String × Nat)) (f : String) (e : RelEvent)
    (hlf : e.logFile = some f) (hne : f ≠ "") :
    ∃ n, (anonymizeEvent fm e).1.logFile = some (Sum.inr n) ∧
      (anonymizeEvent fm e).2.lookup f = some n := by
  cases hl : fm.lookup f with
  | some n =>
    refine ⟨n, ?_, ?_⟩
    · simp [anonymizeEvent, hlf, hne, hl]
    · simpa [anonymizeEvent, hlf, hne, hl] using hl
  | none =>
    refine ⟨fm.length + 1, ?_, ?_⟩
    · simp [anonymizeEvent, hlf, hne, hl]
    · have h2 : (fm ++ [(f, fm.length + 1)]).lookup f = some (fm.length + 1) := by
        rw [lookup_append_none fm [(f, fm.length + 1)] f hl]
        simp [List.lookup]
      simpa [anonymizeEvent, hlf, hne, hl] using h2

lemma anonymizeEvents_length (l : List RelEvent) :
    ∀ fm, (anonymizeEvents fm l).length = l.length := by
  induction l with
  | nil => intro fm; simp [anonymizeEvents]
  | cons a rest ih =>
    intro fm
    simp [anonymizeEvents, ih]

lemma anonymizeEvents_time_mem (l : List RelEvent) :
    ∀ fm x, x ∈ anonymizeEvents fm l → ∃ y, y ∈ l ∧ x.time = y.time := by
  induction l with
  | nil => intro fm x hx; simp [anonymizeEvents] at hx
  | cons a rest ih =>
    intro fm x hx
    simp only [anonymizeEvents, List.mem_cons] at hx
    rcases hx with hx | hx
    · exact ⟨a, by simp, by rw [hx, anonymizeEvent_time]⟩
    · obtain ⟨y, hy, ht⟩ := ih (anonymizeEvent fm a).2 x hx
      exact ⟨y, by simp [hy], ht⟩

lemma anon_spec (l : List RelEvent) :
    ∀ fm i (hi : i < l.length) f,
      (l.get ⟨i, hi⟩).logFile = some f → f ≠ "" →
      ∃ n, (anonMapAfter fm l).lookup f = some n ∧
        ((anonymizeEvents fm l).get
            ⟨i, by rw [anonymizeEvents_length]; exact hi⟩).logFile = some (Sum.inr n) := by
  induction l with
  | nil => intro fm i hi; exact absurd hi (by simp)
  | cons a rest ih =>
    intro fm i hi f hlf hne
    cases i with
    | zero =>
      have hla : a.logFile = some f := hlf
      obtain ⟨n, hout, hlk⟩ := anonymizeEvent_some_out fm f a hla hne
      refine ⟨n, ?_, ?_⟩
      · exact anonMapAfter_lookup_mono rest (anonymizeEvent fm a).2 f n hlk
      · simpa [anonymizeEvents] using hout
    | succ j =>
      have hj : j < rest.length := by simpa using hi
      have hlf' : (rest.get ⟨j, hj⟩).logFile = some f := hlf
      obtain ⟨n, hmap, hget⟩ := ih (anonymizeEvent fm a).2 j hj f hlf' hne
      refine ⟨n, ?_, ?_⟩
      · simpa [anonMapAfter] using hmap
      · simpa [anonymizeEvents] using hget

/-- C4: for every event processed by trimLogs, the session-relative time is
eventTime - startMS, except that a result above the 1e12 threshold is
recomputed as eventTime - startMS - clientStartDate; and in the concrete
scenario with events at times 1000 and 500, session start 500 and end 1500,
both events survive trimming with relative times 500 and 0. -/
theorem claim_C4 (startMS clientStartDate now : Int) (e : RawEvent) :
    (toRelative startMS clientStartDate now e).time =
      (if rawEventTime e now - startMS > 1000000000000
       then rawEventTime e now - startMS - clientStartDate
       else rawEventTime e now - startMS) ∧
    (∀ ty, trimSource ty 500 1500 clientStartDate now
        [{ time := some 1000, timestamp := none, logFile := none },
         { time := some 500, timestamp := none, logFile := none }] =
      [{ time := 500, logFile := none }, { time := 0, logFile := none }]) := by
  constructor
  · simp [toRelative, relativeTime]
  · intro ty
    by_cases hty : ty = "cli" <;>
      simp [trimSource, hty, toRelative, relativeTime, rawEventTime, jsNumOr,
        inWindow, anonymizeEvents, anonymizeEvent]

/-- C5: every event that survives trimming (for any source type) has a
session-relative time inside the window, 0 ≤ time ≤ endMS - startMS: no
finalized artifact contains an event from outside the session window. -/
theorem claim_C5 (ty : String) (startMS endMS clientStartDate now : Int)
    (events : List RawEvent) (e : TrimmedEvent)
    (he : e ∈ trimSource ty startMS endMS clientStartDate now events) :
    0 ≤ e.time ∧ e.time ≤ endMS - startMS := by
  unfold trimSource at he
  by_cases hty : ty = "cli"
  · rw [if_pos hty] at he
    obtain ⟨y, hy, ht⟩ := anonymizeEvents_time_mem _ _ e he
    have hw := List.of_mem_filter hy
    rw [ht]
    simpa [inWindow] using hw
  · rw [if_neg hty] at he
    obtain ⟨y, hy, hxy⟩ := List.mem_map.mp he
    have hw := List.of_mem_filter hy
    rw [← hxy]
    simpa [inWindow] using hw

/-- Witness for C5 at a concrete cli source with one in-window event. -/
theorem claim_C5_witness :
    0 ≤ (⟨5, some (Sum.inr 1)⟩ : TrimmedEvent).time ∧
      (⟨5, some (Sum.inr 1)⟩ : TrimmedEvent).time ≤ 10 - 0 :=
  claim_C5 "cli" 0 10 0 0 [{ time := some 5, timestamp := none, logFile := some "a" }]
    ⟨5, some (Sum.inr 1)⟩ (by decide)

/-- C6: the cli-source trimming pass is anonymizeEvents with the empty
fileMap over the filtered events, and within one such pass the
anonymization is a consistent and injective function of the logFile
identifier: two events carrying identifiers f and g are rewritten to
integers a and b with f = g iff a = b. -/
theorem claim_C6 (startMS endMS clientStartDate now : Int) (events : List RawEvent) :
    trimSource "cli" startMS endMS clientStartDate now events =
      anonymizeEvents []
        ((events.map (toRelative startMS clientStartDate now)).filter
          (inWindow startMS endMS)) ∧
    (∀ (l : List RelEvent) i j (hi : i < l.length) (hj : j < l.length) (f g : String),
      (l.get ⟨i, hi⟩).logFile = some f → f ≠ "" →
      (l.get ⟨j, hj⟩).logFile = some g → g ≠ "" →
      ∃ a b,
        ((anonymizeEvents [] l).get
            ⟨i, by rw [anonymizeEvents_length]; exact hi⟩).logFile = some (Sum.inr a) ∧
        ((anonymizeEvents [] l).get
            ⟨j, by rw [anonymizeEvents_length]; exact hj⟩).logFile = some (Sum.inr b) ∧
        (f = g ↔ a = b)) := by
  constructor
  · simp [trimSource]
  · intro l i j hi hj f g hf hfne hg hgne
    obtain ⟨a, hfa, hga⟩ := anon_spec l [] i hi f hf hfne
    obtain ⟨b, hfb, hgb⟩ := anon_spec l [] j hj g hg hgne
    refine ⟨a, b, hga, hgb, ?_, ?_⟩
    · intro hfg
      subst hfg
      rw [hfa] at hfb
      exact Option.some.injEq _ _ |>.mp hfb
    · intro hab
      subst hab
      exact fmGood_lookup_inj (anonMapAfter [] l) (anonMapAfter_good l [] fmGood_nil)
        f g a hfa hfb

/-- Witness for C6: in a pass over three events with identifiers x, y, x,
the first and second events receive integers related by the injectivity
equivalence. -/
theorem claim_C6_witness :
    ∃ a b,
      ((anonymizeEvents [] demoRel).get
          ⟨0, by rw [anonymizeEvents_length]; decide⟩).logFile = some (Sum.inr a) ∧
      ((anonymizeEvents [] demoRel).get
          ⟨1, by rw [anonymizeEvents_length]; decide⟩).logFile = some (Sum.inr b) ∧
      ("x" = "y" ↔ a = b) :=
  (claim_C6 0 0 0 0 []).2 demoRel 0 1 (by decide) (by decide) "x" "y"
    rfl (by decide) rfl (by decide)

/-! ### Log Router dispatch lemmas -/

/-- The per-dispatch pattern cache is consistent: every cached value is the
value #shouldSendEvent would compute afresh. -/
def cacheGood (vp : String → String → Bool) (tabs : List (Nat × Tab))
    (e : WTEvent) (cache : List (String × Bool)) : Prop :=
  ∀ p b, cache.lookup p = some b → b = rawShould vp tabs e p

lemma cacheGood_nil (vp : String → String → Bool) (tabs : List (Nat × Tab))
    (e : WTEvent) : cacheGood vp tabs e [] := by
  intro p b hb
  simp [List.lookup] at hb

lemma cacheGood_extend (vp : String → String → Bool) (tabs : List (Nat × Tab))
    (e : WTEvent) (cache : List (String × Bool)) (p : String)
    (h : cacheGood vp tabs e cache) :
    cacheGood vp tabs e (cache ++ [(p, rawShould vp tabs e p)]) := by
  intro q b hb
  cases hl : cache.lookup q with
  | some b' =>
    rw [lookup_append_some cache _ q b' hl] at hb
    rw [(Option.some.injEq _ _ |>.mp hb).symm]
    exact h q b' hl
  | none =>
    rw [lookup_append_none cache _ q hl] at hb
    by_cases hq : (q == p) = true
    · have hqp : q = p := eq_of_beq hq
      simp [List.lookup, hq] at hb
      rw [← hb, hqp]
    · simp only [Bool.not_eq_true] at hq
      simp [List.lookup, hq] at hb

lemma shouldSendEvent_correct (vp : String → String → Bool)
    (tabs : List (Nat × Tab)) (e : WTEvent) (cache : List (String × Bool))
    (p : String) (h : cacheGood vp tabs e cache) :
    (shouldSendEvent vp tabs p e cache).1 = rawShould vp tabs e p ∧
      cacheGood vp tabs e (shouldSendEvent vp tabs p e cache).2 := by
  unfold shouldSendEvent
  cases hl : cache.lookup p with
  | some b =>
    exact ⟨h p b hl, h⟩
  | none =>
    cases ht : tabs.lookup e.tabId with
    | some tab =>
      constructor
      · show (vp p tab.url || vp p tab.previousUrl) = rawShould vp tabs e p
        simp [rawShould, ht]
      · show cacheGood vp tabs e (cache ++ [(p, vp p tab.url || vp p tab.previousUrl)])
        have hx := cacheGood_extend vp tabs e cache p h
        rw [show rawShould vp tabs e p = (vp p tab.url || vp p tab.previousUrl) by
          simp [rawShould, ht]] at hx
        exact hx
    | none =>
      constructor
      · show false = rawShould vp tabs e p
        simp [rawShould, ht]
      · show cacheGood vp tabs e (cache ++ [(p, false)])
        have hx := cacheGood_extend vp tabs e cache p h
        rw [show rawShould vp tabs e p = false by simp [rawShould, ht]] at hx
        exact hx

lemma dispatch_eq_filter (vp : String → String → Bool) (tabs : List (Nat × Tab))
    (e : WTEvent) (subs : List (Nat × String)) :
    ∀ cache, cacheGood vp tabs e cache →
      dispatchPatternEvent vp tabs e subs cache =
        (subs.filter fun cp => decide (cp.2 ≠ "") && rawShould vp tabs e cp.2).map
          Prod.fst := by
  induction subs with
  | nil => intro cache _; simp [dispatchPatternEvent]
  | cons hd rest ih =>
    intro cache hc
    obtain ⟨cb, p⟩ := hd
    by_cases hp : p = ""
    · subst hp
      rw [dispatchPatternEvent, if_pos rfl, ih cache hc]
      simp [List.filter]
    · obtain ⟨hval, hc'⟩ := shouldSendEvent_correct vp tabs e cache p hc
      rw [dispatchPatternEvent, if_neg hp]
      dsimp only
      cases hraw : rawShould vp tabs e p with
      | true =>
        rw [show (shouldSendEvent vp tabs p e cache).1 = true from hval.trans hraw,
          if_pos rfl, ih _ hc']
        simp [List.filter, hp, hraw]
      | false =>
        rw [show (shouldSendEvent vp tabs p e cache).1 = false from hval.trans hraw,
          if_neg (by simp), ih _ hc']
        simp [List.filter, hp, hraw]

/-- C7: for a dispatched non-navigation event, a subscription with a truthy
pattern P receives the event whenever P matches the tab's previousUrl —
with no condition on whether P matches the current url — and when the
event's tabId resolves to no known tab the event is delivered to no
pattern subscription at all. -/
theorem claim_C7 (vp : String → String → Bool)
    (navUpdate : WTEvent → List (Nat × Tab) → List (Nat × Tab))
    (globalCbs : List Nat) (subs : List (Nat × String)) (e : WTEvent)
    (tabs : List (Nat × Tab)) (cb : Nat) (P : String)
    (hnav : e.type ∉ navTypes) (hsub : (cb, P) ∈ subs) (hP : P ≠ "") :
    (∀ tab, tabs.lookup e.tabId = some tab → vp P tab.previousUrl = true →
       cb ∈ (handleEvent vp navUpdate globalCbs subs e tabs).1) ∧
    (tabs.lookup e.tabId = none →
       (handleEvent vp navUpdate globalCbs subs e tabs).1 = []) := by
  have hte : updateTabsState navUpdate e tabs = tabs := by
    simp [updateTabsState, hnav]
  have hh : (handleEvent vp navUpdate globalCbs subs e tabs).1 =
      dispatchPatternEvent vp tabs e subs [] := by
    unfold handleEvent
    rw [hte, if_neg hnav]
  rw [hh, dispatch_eq_filter vp tabs e subs [] (cacheGood_nil vp tabs e)]
  constructor
  · intro tab htab hprev
    refine List.mem_map.mpr ⟨(cb, P), ?_, rfl⟩
    refine List.mem_filter.mpr ⟨hsub, ?_⟩
    have hrs : rawShould vp tabs e P = true := by
      simp [rawShould, htab, hprev]
    simp [hP, hrs]
  · intro hnone
    have hall : ∀ cp ∈ subs,
        ¬ ((decide (cp.2 ≠ "") && rawShould vp tabs e cp.2) = true) := by
      intro cp _
      simp [rawShould, hnone]
    rw [List.filter_eq_nil_iff.mpr hall]
    rfl

/-- Witness for C7: a pattern matching only the previousUrl of the event's
tab still receives the event. -/
theorem claim_C7_witness :
    (∀ tab, ([(1, Tab.mk "https://b.example" "https://a.example")] :
          List (Nat × Tab)).lookup (WTEvent.mk "REQUEST_FINISHED" 1).tabId = some tab →
       (fun p u => p == u) "https://a.example" tab.previousUrl = true →
       3 ∈ (handleEvent (fun p u => p == u) (fun _ tabs => tabs) []
         [(3, "https://a.example")] (WTEvent.mk "REQUEST_FINISHED" 1)
         [(1, Tab.mk "https://b.example" "https://a.example")]).1) ∧
    (([(1, Tab.mk "https://b.example" "https://a.example")] :
          List (Nat × Tab)).lookup (WTEvent.mk "REQUEST_FINISHED" 1).tabId = none →
       (handleEvent (fun p u => p == u) (fun _ tabs => tabs) []
         [(3, "https://a.example")] (WTEvent.mk "REQUEST_FINISHED" 1)
         [(1, Tab.mk "https://b.example" "https://a.example")]).1 = []) :=
  claim_C7 (fun p u => p == u) (fun _ tabs => tabs) [] [(3, "https://a.example")]
    (WTEvent.mk "REQUEST_FINISHED" 1)
    [(1, Tab.mk "https://b.example" "https://a.example")] 3 "https://a.example"
    (by decide) (by simp) (by decide)

/-! ### Telemetry sampler theorems -/

/-- C8 is falsified by the code: getSystemMetrics has no try/catch of its
own, so when only the system probe throws — the process and network probes
both returning real readings — the combined Promise.all rejects and the
whole sample is dropped: nothing is recorded for that tick, instead of a
sample with a zeroed system group. -/
theorem claim_C8_counterexample :
    (∃ ps, sysFailEnv.process = .ok ps) ∧ (∃ nr, sysFailEnv.network = .ok nr) ∧
      sysFailEnv.system = .error () ∧
      (collectSample sysFailEnv freshPT).samples = [] :=
  ⟨⟨_, rfl⟩, ⟨_, rfl⟩, rfl, rfl⟩

/-- C8 amended: the process and network probes are each caught
independently — a thrown network probe yields a sample with zeroed network
fields next to the real process and system readings, and a thrown process
probe yields a sample with a zeroed process group — but a thrown system
probe is caught only by the sample-level handler and the whole sample is
discarded (the sampling loop itself continues: collectSample always
returns a state). -/
theorem claim_C8_amended (env : SampleEnv) (st : PTState) :
    (env.network = .error () → ∀ raw ps, env.system = .ok raw → env.process = .ok ps →
       ∃ s, (collectSample env st).samples = st.samples ++ [s] ∧
         s.network = zeroNetwork ∧ s.process = getProcessMetrics st.pid (.ok ps) ∧
         s.system = sysMetricsOf raw) ∧
    (env.process = .error () → ∀ raw, env.system = .ok raw →
       ∃ s, (collectSample env st).samples = st.samples ++ [s] ∧
         s.process = zeroProcess st.pid ∧ s.system = sysMetricsOf raw) ∧
    (env.system = .error () → (collectSample env st).samples = st.samples) := by
  refine ⟨?_, ?_, ?_⟩
  · intro hn raw ps hs hp
    simp only [collectSample, hn, hs, hp, getSystemMetrics, getNetworkMetrics,
      Except.map]
    exact ⟨_, rfl, rfl, rfl, rfl⟩
  · intro hp raw hs
    simp only [collectSample, hp, hs, getSystemMetrics, getProcessMetrics,
      Except.map]
    exact ⟨_, rfl, rfl, rfl⟩
  · intro hs
    simp [collectSample, hs, getSystemMetrics, Except.map]

/-- Witness for the amended C8: the network probe throws, and the recorded
sample carries zeroed network fields with the real process and system
readings. -/
theorem claim_C8_witness :
    ∃ s, (collectSample netFailEnv freshPT).samples = freshPT.samples ++ [s] ∧
      s.network = zeroNetwork ∧
      s.process = getProcessMetrics freshPT.pid (.ok demoProcStats) ∧
      s.system = sysMetricsOf demoSysRaw :=
  (claim_C8_amended netFailEnv freshPT).1 rfl demoSysRaw demoProcStats rfl rfl

/-- C10: when the telemetry sampler's stop() finds no durable sample file
and an empty in-memory sample set, it does not throw: it returns
samples = [] and a null summary. -/
theorem claim_C10 (env : PTStopEnv) (st : PTState)
    (hfile : st.performanceFile = none ∨ env.fileExists = false)
    (hsamples : st.samples = []) :
    (ptStop env st).1 = ([], none) := by
  rcases hfile with h | h <;> simp [ptStop, h, hsamples]

/-- Witness for C10 on a fresh tracker with no file and no samples. -/
theorem claim_C10_witness :
    (ptStop stopEnvNoFile freshPT).1 = ([], none) :=
  claim_C10 stopEnvNoFile freshPT (Or.inl rfl) rfl

end Dashcam
